import Mathlib

/-!
Verification of the Keras-LinkNet training driver (`src/args.py`, `src/main.py`).

The two Python files are shallowly embedded below:

* `src/args.py` — `get_arguments` builds an `ArgumentParser` and parses the
  command line.  argparse semantics are embedded faithfully for the options the
  claims depend on: a supplied value arrives as a string, is run through the
  option's `type` callable (identity when no `type` is given, `bool` for
  `--ignore_unlabelled`), and is then compared against `choices` using Python
  equality (`pyEq`, under which a `str` is never equal to an `int`).  Defaults
  bypass the `choices` check, exactly as in argparse.  Options whose values are
  plain ints/floats/strings with no `choices` are carried through already
  converted, since no claim depends on their conversion.

* `src/main.py` — `main` is embedded as `mainRun`, a function from the parsed
  argument namespace (plus the outputs of the external collaborators: the class
  weight estimators and `keras.models.load_model`) to a trace of observable
  events and an outcome.  Attribute access on the argparse `Namespace` is
  embedded by `Arguments.getattr`, which is defined for exactly the attributes
  `get_arguments` creates; `main`'s accesses to `args.checkpoint_dir`,
  `args.resume` and `args.initial_epoch` (never defined by `get_arguments`)
  therefore yield `none` and raise `AttributeError`.

* the `train` function's model selection (src/main.py:31-37) is
  `trainChosenModel`, and its learning-rate schedule (`_lr_decay`,
  src/main.py:56-59, installed via `LearningRateScheduler` and run by
  `fit_generator`) is `lr_decay_fn` / `fitTrace`.  Floats are modelled as
  rationals; `//` on non-negative ints is `Nat` division.
-/

/-- A Python runtime value (the subset reachable in this program). -/
inductive PyVal where
  | vstr (s : String)
  | vint (n : Int)
  | vbool (b : Bool)
  | vrat (q : ℚ)
deriving DecidableEq, Repr

/-- Numeric view of a Python value: `bool` and `int` and `float` compare
numerically in Python (`True == 1`, `1 == 1.0`); strings do not. -/
def PyVal.asNum : PyVal → Option ℚ
  | .vint n => some (n : ℚ)
  | .vbool b => some (if b then 1 else 0)
  | .vrat q => some q
  | .vstr _ => none

/-- Python `==` on the embedded values: numeric types compare by value,
strings compare as strings, and a string is never equal to a number
(so `"1" == 1` is `False`, the fact behind the `--verbose` behaviour). -/
def pyEq (a b : PyVal) : Bool :=
  match a.asNum, b.asNum with
  | some x, some y => x == y
  | some _, none => false
  | none, some _ => false
  | none, none =>
    match a, b with
    | .vstr s, .vstr t => s == t
    | _, _ => false

/-- Python `str.lower` (ASCII, which covers every string in this program). -/
def pyLower (s : String) : String := String.mk (s.data.map Char.toLower)

/-- Python truthiness of a value (`if args.resume:`). -/
def PyVal.truthy : PyVal → Bool
  | .vstr s => s != ""
  | .vint n => n != 0
  | .vbool b => b
  | .vrat q => q != 0

/-- An argparse parse failure (argparse prints usage and exits the process). -/
inductive ArgErr where
  | invalidChoice (dest : String) (value : String)
  | invalidValue (dest : String) (value : String)
deriving DecidableEq, Repr

/-- One `add_argument` declaration: destination name, `type` callable,
optional `choices`, and the default value. -/
structure OptSpec where
  dest : String
  conv : String → Except String PyVal
  choices : Option (List PyVal)
  dflt : PyVal

/-- argparse handling of one option: a missing option takes the default
(bypassing `choices`, as argparse does); a supplied string is converted by
`type` and then checked against `choices` with Python equality. -/
def parseOpt (spec : OptSpec) (supplied : Option String) : Except ArgErr PyVal :=
  match supplied with
  | none => .ok spec.dflt
  | some s =>
    match spec.conv s with
    | .error _ => .error (.invalidValue spec.dest s)
    | .ok v =>
      match spec.choices with
      | none => .ok v
      | some cs =>
        if cs.any (fun c => pyEq v c) then .ok v else .error (.invalidChoice spec.dest s)

/-- `--mode` (src/args.py:9-19): `choices=['train']`, `default='train'`, no `type`. -/
def modeSpec : OptSpec :=
  ⟨"mode", fun s => .ok (.vstr s), some [.vstr "train"], .vstr "train"⟩

/-- `--dataset` (src/args.py:59-64): `choices=['camvid']`, `default='camvid'`. -/
def datasetSpec : OptSpec :=
  ⟨"dataset", fun s => .ok (.vstr s), some [.vstr "camvid"], .vstr "camvid"⟩

/-- `--weighing` (src/args.py:74-82): `choices=['enet', 'mfb', 'none']`,
`default='ENet'` (note: the default is not itself one of the choices). -/
def weighingSpec : OptSpec :=
  ⟨"weighing", fun s => .ok (.vstr s),
    some [.vstr "enet", .vstr "mfb", .vstr "none"], .vstr "ENet"⟩

/-- `--ignore_unlabelled` (src/args.py:83-91): `type=bool`, `default=True`.
Python `bool(s)` on a string is the non-emptiness test. -/
def ignoreSpec : OptSpec :=
  ⟨"ignore_unlabelled", fun s => .ok (.vbool (s != "")), none, .vbool true⟩

/-- `--verbose` (src/args.py:100-108): `choices=[0, 1, 2]` (ints),
`default=1`, and no `type=` — so a command-line value stays a string. -/
def verboseSpec : OptSpec :=
  ⟨"verbose", fun s => .ok (.vstr s), some [.vint 0, .vint 1, .vint 2], .vint 1⟩

/-- The command line: the five options whose argparse behaviour the claims
depend on arrive as raw optional strings; the remaining plain int/float/str
options (no `choices`) are carried already converted. -/
structure CliInput where
  mode : Option String
  dataset : Option String
  weighing : Option String
  ignore_unlabelled : Option String
  verbose : Option String
  batch_size : Int
  epochs : Int
  learning_rate : ℚ
  lr_decay : ℚ
  lr_decay_epochs : Int
  workers : Int
  dataset_dir : String
  name : String
  save_dir : String

/-- The argparse `Namespace` produced by `get_arguments`: it has exactly the
fourteen attributes declared in src/args.py (and in particular no
`checkpoint_dir`, `resume` or `initial_epoch`). -/
structure Arguments where
  mode : String
  batch_size : Int
  epochs : Int
  learning_rate : ℚ
  lr_decay : ℚ
  lr_decay_epochs : Int
  dataset : String
  dataset_dir : String
  weighing : String
  ignore_unlabelled : Bool
  workers : Int
  verbose : PyVal
  name : String
  save_dir : String
deriving DecidableEq, Repr

def PyVal.strD : PyVal → String
  | .vstr s => s
  | _ => ""

def PyVal.boolD : PyVal → Bool
  | .vbool b => b
  | _ => false

/-- Python attribute access on the parsed namespace: defined for exactly the
attributes `get_arguments` sets, `none` (`AttributeError`) for anything else. -/
def Arguments.getattr (a : Arguments) : String → Option PyVal
  | "mode" => some (.vstr a.mode)
  | "batch_size" => some (.vint a.batch_size)
  | "epochs" => some (.vint a.epochs)
  | "learning_rate" => some (.vrat a.learning_rate)
  | "lr_decay" => some (.vrat a.lr_decay)
  | "lr_decay_epochs" => some (.vint a.lr_decay_epochs)
  | "dataset" => some (.vstr a.dataset)
  | "dataset_dir" => some (.vstr a.dataset_dir)
  | "weighing" => some (.vstr a.weighing)
  | "ignore_unlabelled" => some (.vbool a.ignore_unlabelled)
  | "workers" => some (.vint a.workers)
  | "verbose" => some a.verbose
  | "name" => some (.vstr a.name)
  | "save_dir" => some (.vstr a.save_dir)
  | _ => none

/-- `get_arguments` (src/args.py:4-122): parse each option, fail on the first
argparse error, otherwise return the namespace. -/
def get_arguments (cli : CliInput) : Except ArgErr Arguments := do
  let mode ← parseOpt modeSpec cli.mode
  let dataset ← parseOpt datasetSpec cli.dataset
  let weighing ← parseOpt weighingSpec cli.weighing
  let ign ← parseOpt ignoreSpec cli.ignore_unlabelled
  let verb ← parseOpt verboseSpec cli.verbose
  pure
    { mode := mode.strD
      batch_size := cli.batch_size
      epochs := cli.epochs
      learning_rate := cli.learning_rate
      lr_decay := cli.lr_decay
      lr_decay_epochs := cli.lr_decay_epochs
      dataset := dataset.strD
      dataset_dir := cli.dataset_dir
      weighing := weighing.strD
      ignore_unlabelled := ign.boolD
      workers := cli.workers
      verbose := verb
      name := cli.name
      save_dir := cli.save_dir }

/-- An empty command line: every option takes its src/args.py default. -/
def cli_defaults : CliInput :=
  { mode := none, dataset := none, weighing := none, ignore_unlabelled := none
    verbose := none, batch_size := 10, epochs := 300, learning_rate := 5 / 10000
    lr_decay := 1 / 10, lr_decay_epochs := 100, workers := 4
    dataset_dir := "data/CamVid", name := "LinkNet", save_dir := "checkpoints" }

/-- The namespace `get_arguments` returns for the empty command line. -/
def args_defaults : Arguments :=
  { mode := "train", batch_size := 10, epochs := 300, learning_rate := 5 / 10000
    lr_decay := 1 / 10, lr_decay_epochs := 100, dataset := "camvid"
    dataset_dir := "data/CamVid", weighing := "ENet", ignore_unlabelled := true
    workers := 4, verbose := .vint 1, name := "LinkNet", save_dir := "checkpoints" }

example : get_arguments cli_defaults = .ok args_defaults := rfl

/-- A Python exception escaping `main` (or the `SystemExit` of an argparse
failure). -/
inductive PyError where
  | attributeError (name : String)
  | runtimeError (msg : String)
  | typeError (msg : String)
  | assertionError (msg : String)
  | ioError (msg : String)
  | systemExit (e : ArgErr)
deriving DecidableEq, Repr

/-- A model object: either freshly constructed
(`LinkNet(num_classes, ...).get_model()`, src/main.py:35) or restored by
`keras.models.load_model`. -/
inductive Model where
  | linkNet (numClasses : Nat)
  | restored
deriving DecidableEq, Repr

/-- Observable actions of `main` on its collaborators. -/
inductive Event where
  | ranEnetWeighing
  | ranMfbWeighing
  | loadedModel (path : String) (customObjects : List String)
  | trained (initialEpoch : PyVal) (classWeights : Option (List ℚ))
  | saved (path : String)
  | tested
deriving DecidableEq, Repr

/-- Does the event save, resume (load) or train a model? -/
def Event.isPersistence : Event → Bool
  | .loadedModel _ _ => true
  | .trained _ _ => true
  | .saved _ => true
  | _ => false

/-- Outputs of the external collaborators `main` calls: the two class-weight
estimators (`data.utils.enet_weighing` / `median_freq_balancing`, not part of
this repository's sources) and `keras.models.load_model`. -/
structure External where
  enetWeights : List ℚ
  mfbWeights : List ℚ
  loadResult : Except PyError Unit

/-- `os.path.join` for the relative string paths used here. -/
def pathJoin (parts : List String) : String := String.intercalate "/" parts

/-- `class_weights[-1] = 0` (src/main.py:165): numpy assignment to the last
index (an index into an empty array would raise, but a produced weight vector
has `num_classes ≥ 1` entries). -/
def setLastZero : List ℚ → List ℚ
  | [] => []
  | l => l.dropLast ++ [0]

/-- src/main.py:146-158 — choose the estimator by `args.weighing.lower()`;
`args.weighing` is a string, so the `is not None` guard at line 146 always
holds, and any name other than `enet`/`mfb` falls to `class_weights = None`. -/
def rawClassWeights (ext : External) (a : Arguments) : Option (List ℚ) :=
  if pyLower a.weighing = "enet" then some ext.enetWeights
  else if pyLower a.weighing = "mfb" then some ext.mfbWeights
  else none

/-- src/main.py:160-165 — if a weight vector was produced and
`args.ignore_unlabelled` holds and the dataset is camvid, zero its last entry. -/
def classWeightsOf (ext : External) (a : Arguments) : Option (List ℚ) :=
  match rawClassWeights ext a with
  | none => none
  | some w =>
    if a.ignore_unlabelled ∧ pyLower a.dataset = "camvid" then some (setLastZero w)
    else some w

/-- Which weighing pass runs in train/full mode (src/main.py:144-158). -/
def weighingEvents (a : Arguments) : List Event :=
  if pyLower a.mode = "train" ∨ pyLower a.mode = "full" then
    if pyLower a.weighing = "enet" then [.ranEnetWeighing]
    else if pyLower a.weighing = "mfb" then [.ranMfbWeighing]
    else []
  else []

/-- `main` (src/main.py:108-224), given the parsed namespace and the external
collaborators' outputs.  Every attribute access the source performs on names
`get_arguments` never defines goes through `Arguments.getattr` and raises
`AttributeError`; the code after the line-186 access is kept (it is reachable
for no `Arguments` value, exactly as in the source). -/
def mainRun (ext : External) (a : Arguments) : List Event × Except PyError Unit :=
  -- src/main.py:113-121 — dataset dispatch
  if pyLower a.dataset = "camvid" ∨ pyLower a.dataset = "cityscapes" then
    -- src/main.py:124-167 — dataloaders and class weights in train/full mode
    -- (the weight vector actually passed on is `classWeightsOf ext a`)
    -- src/main.py:186-188 — os.path.join(args.checkpoint_dir, ...) first
    -- evaluates args.checkpoint_dir
    match a.getattr "checkpoint_dir" with
    | none => (weighingEvents a, .error (.attributeError "checkpoint_dir"))
    | some (.vstr cd) =>
      let checkpoint_path := pathJoin [cd, a.name, a.name ++ ".h5"]
      -- src/main.py:191-200 — resume via load_model with the custom layer and
      -- metric registered by name
      match a.getattr "resume" with
      | none => (weighingEvents a, .error (.attributeError "resume"))
      | some r =>
        let resumeStep : List Event × Except PyError (Option Model) :=
          if r.truthy then
            match ext.loadResult with
            | .error e => ([], .error e)
            | .ok _ =>
              ([.loadedModel checkpoint_path ["Conv2DTranspose", "mean_iou"]],
                .ok (some .restored))
          else ([], .ok none)
        match resumeStep with
        | (ev1, .error e) => (weighingEvents a ++ ev1, .error e)
        | (ev1, .ok model) =>
          if pyLower a.mode = "train" ∨ pyLower a.mode = "full" then
            -- src/main.py:202-220 — train (passing args.initial_epoch), then save
            match a.getattr "initial_epoch" with
            | none => (weighingEvents a ++ ev1, .error (.attributeError "initial_epoch"))
            | some ie =>
              let ev2 := weighingEvents a ++ ev1 ++
                [.trained ie (classWeightsOf ext a), .saved checkpoint_path]
              -- src/main.py:222-224 — test in test/full mode
              if pyLower a.mode = "test" ∨ pyLower a.mode = "full" then
                (ev2 ++ [.tested], .ok ())
              else (ev2, .ok ())
          else if pyLower a.mode = "test" ∨ pyLower a.mode = "full" then
            match model with
            | none => (weighingEvents a ++ ev1, .error (.assertionError "model is not defined"))
            | some _ => (weighingEvents a ++ ev1 ++ [.tested], .ok ())
          else (weighingEvents a ++ ev1, .ok ())
    | some _ => (weighingEvents a, .error (.typeError "join expects str"))
  else ([], .error (.runtimeError (a.dataset ++ " is not a supported dataset.")))

/-- The whole program: `get_arguments` then `main` (an argparse failure exits
before any of `main`'s body runs). -/
def program (ext : External) (cli : CliInput) : List Event × Except PyError Unit :=
  match get_arguments cli with
  | .error e => ([], .error (.systemExit e))
  | .ok a => mainRun ext a

/-- Concrete collaborator outputs for witnesses: a successful load. -/
def ext0 : External := ⟨[2, 3], [4, 5], .ok ()⟩

/-- Concrete collaborator outputs with a failing `load_model` (missing or
incompatible checkpoint). -/
def ext1 : External := ⟨[2, 3], [4, 5], .error (.ioError "missing checkpoint")⟩

example : program ext0 cli_defaults =
    ([Event.ranEnetWeighing], .error (.attributeError "checkpoint_dir")) := rfl

/-- src/main.py:31-37 — `train` builds a fresh `LinkNet` model exactly when no
`checkpoint_model` was supplied, and otherwise uses the supplied model as is. -/
def trainChosenModel (numClasses : Nat) (checkpoint_model : Option Model) : Model :=
  match checkpoint_model with
  | none => .linkNet numClasses
  | some m => m

/-- `_lr_decay` (src/main.py:56-57): the closure over `learning_rate`,
`lr_decay` and `lr_decay_epochs` passed to `LearningRateScheduler`.  It
receives the epoch index and the optimizer's current learning rate, ignores
the latter, and returns `lr_decay ** (epoch // lr_decay_epochs) *
learning_rate`.  Epochs are non-negative, so `//` is `Nat` floor division
(Python raises on `lr_decay_epochs = 0`, hence the `0 < lr_decay_epochs`
hypotheses downstream). -/
def lr_decay_fn (learning_rate lr_decay : ℚ) (lr_decay_epochs : ℕ)
    (epoch : ℕ) (_lr : ℚ) : ℚ :=
  lr_decay ^ (epoch / lr_decay_epochs) * learning_rate

/-- One action of `model.fit_generator` as observed through the
`LearningRateScheduler` callback. -/
inductive EpochAction where
  | setLR (lr : ℚ)
  | runBatches (epoch : ℕ)
deriving DecidableEq, Repr

/-- Keras `fit_generator` with a `LearningRateScheduler`: for each remaining
epoch, `on_epoch_begin` computes `sched epoch current_lr`, applies it to the
optimizer, and only then runs the epoch's batches. -/
def fitTraceAux (sched : ℕ → ℚ → ℚ) : ℚ → ℕ → ℕ → List EpochAction
  | _, _, 0 => []
  | lr, i, r + 1 =>
    .setLR (sched i lr) :: .runBatches i :: fitTraceAux sched (sched i lr) (i + 1) r

/-- The scheduler trace of `fit_generator(..., epochs=epochs,
initial_epoch=initial_epoch, callbacks=[lr_scheduler, ...])`
(src/main.py:78-88): epochs `initial_epoch, ..., epochs - 1` in order. -/
def fitTrace (sched : ℕ → ℚ → ℚ) (lr0 : ℚ) (initial_epoch epochs : ℕ) :
    List EpochAction :=
  fitTraceAux sched lr0 initial_epoch (epochs - initial_epoch)

/-- The parameters `main` passes to `train` (src/main.py:16-29, 204-217). -/
structure TrainParams where
  epochs : ℕ
  initial_epoch : ℕ
  learning_rate : ℚ
  lr_decay : ℚ
  lr_decay_epochs : ℕ
  numClasses : ℕ

/-- `train` (src/main.py:16-90): choose the model (fresh unless a checkpoint
model was given), build a fresh `Adam(learning_rate)` optimizer — so the
optimizer's learning rate starts at `learning_rate` — install
`LearningRateScheduler(_lr_decay)` and fit. -/
def trainRun (p : TrainParams) (checkpoint_model : Option Model) :
    Model × List EpochAction :=
  (trainChosenModel p.numClasses checkpoint_model,
    fitTrace (lr_decay_fn p.learning_rate p.lr_decay p.lr_decay_epochs)
      p.learning_rate p.initial_epoch p.epochs)

/-- When the schedule ignores the current learning rate, the fit trace is the
per-epoch staircase, independent of the threaded learning-rate state. -/
theorem fitTraceAux_const (sched : ℕ → ℚ → ℚ) (f : ℕ → ℚ)
    (hs : ∀ i lr, sched i lr = f i) :
    ∀ (r i : ℕ) (lr : ℚ),
      fitTraceAux sched lr i r =
        (List.range' i r).flatMap (fun j => [.setLR (f j), .runBatches j]) := by
  intro r
  induction r with
  | zero => intro i lr; rfl
  | succ r ih =>
    intro i lr
    simp [fitTraceAux, List.range'_succ, List.flatMap_cons, hs, ih]

/-- Closed form of the trace of `train`'s scheduler: at every epoch `j` the
learning rate is set to `learning_rate * lr_decay ^ (j / lr_decay_epochs)`
before epoch `j`'s batches run. -/
theorem fitTrace_closed (α β : ℚ) (d : ℕ) (lr0 : ℚ) (init n : ℕ) :
    fitTrace (lr_decay_fn α β d) lr0 init n =
      (List.range' init (n - init)).flatMap
        (fun j => [.setLR (α * β ^ (j / d)), .runBatches j]) := by
  unfold fitTrace
  exact fitTraceAux_const _ (fun j => α * β ^ (j / d))
    (fun i lr => by unfold lr_decay_fn; ring) _ _ _

example :
    fitTrace (lr_decay_fn 2 3 1) 7 0 2 =
      [.setLR 2, .runBatches 0, .setLR 6, .runBatches 1] := by
  rw [fitTrace_closed]
  norm_num [List.range', List.flatMap]

/-- Whatever `--mode` parses to is the string `"train"`: the only choice is
`'train'` and the default is `'train'`. -/
theorem parseOpt_mode_ok (o : Option String) (v : PyVal)
    (h : parseOpt modeSpec o = .ok v) : v = .vstr "train" := by
  cases o with
  | none =>
    have h2 : (Except.ok (PyVal.vstr "train") : Except ArgErr PyVal) = .ok v := h
    injection h2 with h3
    exact h3.symm
  | some s =>
    simp only [parseOpt, modeSpec] at h
    split at h
    · rename_i hc
      injection h with h3
      simp [pyEq, PyVal.asNum] at hc
      rw [← h3, hc]
    · exact absurd h (by simp)

/-- Whatever `--dataset` parses to is the string `"camvid"`. -/
theorem parseOpt_dataset_ok (o : Option String) (v : PyVal)
    (h : parseOpt datasetSpec o = .ok v) : v = .vstr "camvid" := by
  cases o with
  | none =>
    have h2 : (Except.ok (PyVal.vstr "camvid") : Except ArgErr PyVal) = .ok v := h
    injection h2 with h3
    exact h3.symm
  | some s =>
    simp only [parseOpt, datasetSpec] at h
    split at h
    · rename_i hc
      injection h with h3
      simp [pyEq, PyVal.asNum] at hc
      rw [← h3, hc]
    · exact absurd h (by simp)

/-- Every namespace `get_arguments` returns has `mode = "train"` and
`dataset = "camvid"`. -/
theorem get_arguments_sound (cli : CliInput) (a : Arguments)
    (h : get_arguments cli = .ok a) : a.mode = "train" ∧ a.dataset = "camvid" := by
  unfold get_arguments at h
  cases h1 : parseOpt modeSpec cli.mode with
  | error e => rw [h1] at h; simp [Bind.bind, Except.bind] at h
  | ok vm =>
    rw [h1] at h
    cases h2 : parseOpt datasetSpec cli.dataset with
    | error e => rw [h2] at h; simp [Bind.bind, Except.bind] at h
    | ok vd =>
      rw [h2] at h
      cases h3 : parseOpt weighingSpec cli.weighing with
      | error e => rw [h3] at h; simp [Bind.bind, Except.bind] at h
      | ok vw =>
        rw [h3] at h
        cases h4 : parseOpt ignoreSpec cli.ignore_unlabelled with
        | error e => rw [h4] at h; simp [Bind.bind, Except.bind] at h
        | ok vi =>
          rw [h4] at h
          cases h5 : parseOpt verboseSpec cli.verbose with
          | error e => rw [h5] at h; simp [Bind.bind, Except.bind] at h
          | ok vv =>
            rw [h5] at h
            simp only [Bind.bind, Except.bind, pure, Except.pure] at h
            injection h with h6
            rw [← h6]
            rw [parseOpt_mode_ok cli.mode vm h1, parseOpt_dataset_ok cli.dataset vd h2]
            exact ⟨rfl, rfl⟩

/-- The parsed namespace has no `checkpoint_dir` attribute. -/
theorem getattr_checkpoint_dir (a : Arguments) :
    a.getattr "checkpoint_dir" = none := rfl

/-- The parsed namespace has no `resume` attribute. -/
theorem getattr_resume (a : Arguments) : a.getattr "resume" = none := rfl

/-- The parsed namespace has no `initial_epoch` attribute. -/
theorem getattr_initial_epoch (a : Arguments) :
    a.getattr "initial_epoch" = none := rfl

/-- The parsed namespace does have a `save_dir` attribute. -/
theorem getattr_save_dir (a : Arguments) :
    a.getattr "save_dir" = some (.vstr a.save_dir) := rfl

/-- The weighing pass never loads, trains or saves a model. -/
theorem weighingEvents_no_persistence (a : Arguments) :
    (weighingEvents a).all (fun e => !e.isPersistence) = true := by
  unfold weighingEvents
  split_ifs <;> rfl

/-- On any namespace with `dataset = "camvid"` (which `get_arguments`
guarantees), `main` runs the weighing pass and then dies with
`AttributeError` at the `args.checkpoint_dir` access of the checkpoint-path
construction (src/main.py:186-188). -/
theorem mainRun_attr_error (ext : External) (a : Arguments)
    (hds : a.dataset = "camvid") :
    mainRun ext a = (weighingEvents a, .error (.attributeError "checkpoint_dir")) := by
  have h1 : pyLower a.dataset = "camvid" ∨ pyLower a.dataset = "cityscapes" := by
    left; rw [hds]; rfl
  unfold mainRun
  rw [if_pos h1, getattr_checkpoint_dir]

/-- If `get_arguments` succeeds, its `--weighing` parse succeeded. -/
theorem get_arguments_weighing_ok (cli : CliInput) (a : Arguments)
    (h : get_arguments cli = .ok a) :
    ∃ v, parseOpt weighingSpec cli.weighing = .ok v := by
  unfold get_arguments at h
  cases h1 : parseOpt modeSpec cli.mode with
  | error e => rw [h1] at h; simp [Bind.bind, Except.bind] at h
  | ok vm =>
    rw [h1] at h
    cases h2 : parseOpt datasetSpec cli.dataset with
    | error e => rw [h2] at h; simp [Bind.bind, Except.bind] at h
    | ok vd =>
      rw [h2] at h
      cases h3 : parseOpt weighingSpec cli.weighing with
      | error e => rw [h3] at h; simp [Bind.bind, Except.bind] at h
      | ok vw => exact ⟨vw, rfl⟩

/-- Unfolding of `classWeightsOf` once the raw estimator result is known. -/
theorem classWeightsOf_eq (ext : External) (a : Arguments) (w0 : List ℚ)
    (hraw : rawClassWeights ext a = some w0) :
    classWeightsOf ext a =
      if a.ignore_unlabelled ∧ pyLower a.dataset = "camvid" then
        some (setLastZero w0)
      else some w0 := by
  unfold classWeightsOf
  rw [hraw]

/-- C1: for every argument namespace returned by `get_arguments` (which
defines `save_dir` but not `checkpoint_dir`, `resume` or `initial_epoch`),
every invocation of `main` reaches the checkpoint-path construction and
raises `AttributeError` on `args.checkpoint_dir` — and attribute lookups of
`resume` and `initial_epoch` would likewise fail — before any model is
loaded, trained or saved. -/
theorem claim_C1 (ext : External) (cli : CliInput) (a : Arguments)
    (h : get_arguments cli = .ok a) :
    (mainRun ext a).2 = .error (.attributeError "checkpoint_dir")
    ∧ ((mainRun ext a).1).all (fun e => !e.isPersistence) = true
    ∧ a.getattr "checkpoint_dir" = none
    ∧ a.getattr "resume" = none
    ∧ a.getattr "initial_epoch" = none
    ∧ a.getattr "save_dir" = some (.vstr a.save_dir) := by
  obtain ⟨hm, hds⟩ := get_arguments_sound cli a h
  rw [mainRun_attr_error ext a hds]
  exact ⟨rfl, weighingEvents_no_persistence a, rfl, rfl, rfl, rfl⟩

/-- C1 witness: the default command line. -/
theorem claim_C1_witness :
    get_arguments cli_defaults = .ok args_defaults
    ∧ ((mainRun ext0 args_defaults).2 = .error (.attributeError "checkpoint_dir")
        ∧ ((mainRun ext0 args_defaults).1).all (fun e => !e.isPersistence) = true
        ∧ args_defaults.getattr "checkpoint_dir" = none
        ∧ args_defaults.getattr "resume" = none
        ∧ args_defaults.getattr "initial_epoch" = none
        ∧ args_defaults.getattr "save_dir" = some (.vstr args_defaults.save_dir)) :=
  ⟨rfl, claim_C1 ext0 cli_defaults args_defaults rfl⟩

/-- C2: for every epoch index `i ≥ 0`, the scheduler installed by `train`
sets the epoch's learning rate to exactly
`learning_rate * lr_decay ^ (i / lr_decay_epochs)` (integer floor division)
before the epoch's batches run.  `0 < lr_decay_epochs` mirrors Python, where
`// 0` would raise. -/
theorem claim_C2 (α β : ℚ) (d init n : ℕ) (cm : Option Model) (nc : ℕ)
    (hd : 0 < d) :
    (trainRun ⟨n, init, α, β, d, nc⟩ cm).2 =
      (List.range' init (n - init)).flatMap
        (fun i => [.setLR (α * β ^ (i / d)), .runBatches i]) :=
  fitTrace_closed α β d α init n

/-- C2 witness: two epochs with `learning_rate = 2`, `lr_decay = 3`,
`lr_decay_epochs = 1`. -/
theorem claim_C2_witness :
    0 < 1
    ∧ (trainRun ⟨2, 0, 2, 3, 1, 1⟩ none).2 =
        (List.range' 0 (2 - 0)).flatMap
          (fun i => [.setLR (2 * 3 ^ (i / 1)), .runBatches i])
    ∧ (trainRun ⟨2, 0, 2, 3, 1, 1⟩ none).2 =
        [.setLR 2, .runBatches 0, .setLR 6, .runBatches 1] := by
  refine ⟨Nat.one_pos, claim_C2 2 3 1 0 2 none 1 Nat.one_pos, ?_⟩
  show fitTrace (lr_decay_fn 2 3 1) 2 0 2 = _
  rw [fitTrace_closed]
  norm_num [List.range', List.flatMap]

/-- C3: a run resumed at `initial_epoch = k` with a restored model produces
the same learning-rate schedule as a fresh run started directly at epoch `k`
— the schedule ignores the optimizer's current learning rate and depends only
on the epoch index and the constructor-supplied constants — and
`lr(k) = learning_rate * lr_decay ^ (k / lr_decay_epochs)`. -/
theorem claim_C3 (α β : ℚ) (d k n nc nc2 : ℕ) (lr0 lr0' : ℚ) (m : Model)
    (hd : 0 < d) (hk : k < n) :
    (∀ (i : ℕ) (x y : ℚ), lr_decay_fn α β d i x = lr_decay_fn α β d i y)
    ∧ fitTrace (lr_decay_fn α β d) lr0 k n = fitTrace (lr_decay_fn α β d) lr0' k n
    ∧ (trainRun ⟨n, k, α, β, d, nc⟩ (some m)).2 =
        (trainRun ⟨n, k, α, β, d, nc2⟩ none).2
    ∧ ((trainRun ⟨n, k, α, β, d, nc⟩ (some m)).2).head? =
        some (.setLR (α * β ^ (k / d))) := by
  refine ⟨fun i x y => rfl, ?_, rfl, ?_⟩
  · rw [fitTrace_closed, fitTrace_closed]
  · show (fitTrace (lr_decay_fn α β d) α k n).head? = _
    rw [fitTrace_closed]
    obtain ⟨t, ht⟩ := Nat.exists_eq_succ_of_ne_zero (Nat.sub_ne_zero_of_lt hk)
    rw [ht, List.range'_succ, List.flatMap_cons]
    rfl

/-- C3 witness: resume at epoch 1 of 2. -/
theorem claim_C3_witness :
    0 < 1 ∧ 1 < 2
    ∧ ((∀ (i : ℕ) (x y : ℚ), lr_decay_fn 2 3 1 i x = lr_decay_fn 2 3 1 i y)
        ∧ fitTrace (lr_decay_fn 2 3 1) 7 1 2 = fitTrace (lr_decay_fn 2 3 1) 9 1 2
        ∧ (trainRun ⟨2, 1, 2, 3, 1, 1⟩ (some .restored)).2 =
            (trainRun ⟨2, 1, 2, 3, 1, 2⟩ none).2
        ∧ ((trainRun ⟨2, 1, 2, 3, 1, 1⟩ (some .restored)).2).head? =
            some (.setLR (2 * 3 ^ (1 / 1)))) :=
  ⟨Nat.one_pos, Nat.one_lt_two,
    claim_C3 2 3 1 1 2 1 2 7 9 .restored Nat.one_pos Nat.one_lt_two⟩

/-- C4: whenever `ignore_unlabelled` is set and a class-weight vector was
produced (whatever weighing algorithm produced it), the final entry of the
vector `main` passes to training is exactly 0. -/
theorem claim_C4 (ext : External) (cli : CliInput) (a : Arguments) (w : List ℚ)
    (h : get_arguments cli = .ok a)
    (hi : a.ignore_unlabelled = true)
    (hw : classWeightsOf ext a = some w)
    (hne : w ≠ []) :
    w.getLast? = some 0 := by
  obtain ⟨hm, hds⟩ := get_arguments_sound cli a h
  cases hraw : rawClassWeights ext a with
  | none => unfold classWeightsOf at hw; rw [hraw] at hw; exact absurd hw (by simp)
  | some w0 =>
    have hc : a.ignore_unlabelled ∧ pyLower a.dataset = "camvid" := by
      refine ⟨hi, ?_⟩
      rw [hds]; rfl
    rw [classWeightsOf_eq ext a w0 hraw, if_pos hc] at hw
    injection hw with hw2
    cases w0 with
    | nil => exact absurd hw2.symm hne
    | cons x xs =>
      rw [← hw2]
      show ((x :: xs).dropLast ++ [(0 : ℚ)]).getLast? = some 0
      simp [List.getLast?_concat]

/-- C4 witness: default arguments, enet estimator output `[2, 3]`. -/
theorem claim_C4_witness :
    (get_arguments cli_defaults = .ok args_defaults
      ∧ args_defaults.ignore_unlabelled = true
      ∧ classWeightsOf ext0 args_defaults = some [2, 0]
      ∧ ([2, 0] : List ℚ) ≠ [])
    ∧ ([2, 0] : List ℚ).getLast? = some 0 :=
  ⟨⟨rfl, rfl, rfl, by simp⟩,
    claim_C4 ext0 cli_defaults args_defaults [2, 0] rfl rfl rfl (by simp)⟩

/-- C5: every command-line `--weighing` value outside `{enet, mfb, none}` is
rejected by argparse — the run exits with no event (no dataset pass, no
weight computation), and the unrecognized name is never silently treated as
no weighting. -/
theorem claim_C5 (ext : External) (cli : CliInput) (w : String)
    (hs : cli.weighing = some w)
    (hw : w ∉ (["enet", "mfb", "none"] : List String)) :
    parseOpt weighingSpec (some w) = .error (.invalidChoice "weighing" w)
    ∧ (program ext cli).1 = []
    ∧ ∃ e, (program ext cli).2 = .error (.systemExit e) := by
  obtain ⟨hw1, hw2, hw3⟩ : w ≠ "enet" ∧ w ≠ "mfb" ∧ w ≠ "none" := by
    simpa [not_or] using hw
  have hparse : parseOpt weighingSpec (some w) =
      .error (.invalidChoice "weighing" w) := by
    simp [parseOpt, weighingSpec, pyEq, PyVal.asNum, hw1, hw2, hw3]
  obtain ⟨e, he⟩ : ∃ e, get_arguments cli = .error e := by
    cases hga : get_arguments cli with
    | error e => exact ⟨e, rfl⟩
    | ok a =>
      obtain ⟨v, hv⟩ := get_arguments_weighing_ok cli a hga
      rw [hs, hparse] at hv
      exact absurd hv (by simp)
  refine ⟨hparse, ?_, e, ?_⟩
  · unfold program; rw [he]
  · unfold program; rw [he]

/-- C5 witness: `--weighing median`. -/
theorem claim_C5_witness :
    ({ cli_defaults with weighing := some "median" } : CliInput).weighing =
        some "median"
    ∧ "median" ∉ (["enet", "mfb", "none"] : List String)
    ∧ (parseOpt weighingSpec (some "median") =
          .error (.invalidChoice "weighing" "median")
        ∧ (program ext0 { cli_defaults with weighing := some "median" }).1 = []
        ∧ ∃ e, (program ext0 { cli_defaults with weighing := some "median" }).2 =
            .error (.systemExit e)) :=
  ⟨rfl, by simp,
    claim_C5 ext0 { cli_defaults with weighing := some "median" } "median" rfl
      (by simp)⟩

/-- C6 (code bug): the three string-choice options behave as documented, but
`--verbose` — declared with int `choices=[0, 1, 2]` and no `type=` — rejects
every command-line value, including the documented `0`, `1` and `2`, because
the raw string is compared against int choices and `"1" == 1` is false in
Python. -/
theorem claim_C6_bug :
    parseOpt verboseSpec (some "0") = .error (.invalidChoice "verbose" "0")
    ∧ parseOpt verboseSpec (some "1") = .error (.invalidChoice "verbose" "1")
    ∧ parseOpt verboseSpec (some "2") = .error (.invalidChoice "verbose" "2")
    ∧ parseOpt modeSpec (some "train") = .ok (.vstr "train")
    ∧ parseOpt modeSpec (some "test") = .error (.invalidChoice "mode" "test")
    ∧ parseOpt datasetSpec (some "camvid") = .ok (.vstr "camvid")
    ∧ parseOpt datasetSpec (some "cityscapes") =
        .error (.invalidChoice "dataset" "cityscapes")
    ∧ parseOpt weighingSpec (some "enet") = .ok (.vstr "enet")
    ∧ parseOpt weighingSpec (some "mfb") = .ok (.vstr "mfb")
    ∧ parseOpt weighingSpec (some "none") = .ok (.vstr "none")
    ∧ parseOpt weighingSpec (some "ENet") =
        .error (.invalidChoice "weighing" "ENet") :=
  ⟨rfl, rfl, rfl, rfl, rfl, rfl, rfl, rfl, rfl, rfl, rfl⟩

/-- C7 (code bug): the spec's checkpoint path would be
`{save_dir}/{name}/{name}.h5`, but `main` builds the path from the undefined
`args.checkpoint_dir`, so every run (here: the default command line) raises
`AttributeError` at the path construction and nothing is ever saved. -/
theorem claim_C7_bug :
    pathJoin [args_defaults.save_dir, args_defaults.name,
        args_defaults.name ++ ".h5"] = "checkpoints/LinkNet/LinkNet.h5"
    ∧ program ext0 cli_defaults =
        ([Event.ranEnetWeighing], .error (.attributeError "checkpoint_dir"))
    ∧ ((program ext0 cli_defaults).1).all (fun e => !e.isPersistence) = true :=
  ⟨rfl, rfl, rfl⟩

/-- C8 (code bug): resume cannot be requested — the namespace has no `resume`
or `initial_epoch` attribute, and every run dies with `AttributeError` at the
`checkpoint_dir` access before the resume block, so no model is ever loaded
or trained. -/
theorem claim_C8_bug :
    args_defaults.getattr "resume" = none
    ∧ args_defaults.getattr "initial_epoch" = none
    ∧ args_defaults.getattr "checkpoint_dir" = none
    ∧ (program ext0 cli_defaults).2 = .error (.attributeError "checkpoint_dir")
    ∧ ((program ext0 cli_defaults).1).all (fun e => !e.isPersistence) = true :=
  ⟨rfl, rfl, rfl, rfl, rfl⟩

/-- C9 (code bug): in `train` a fresh model is built exactly when no
checkpoint model is supplied; but the resume/checkpoint-error path of `main`
is unreachable — even with a failing `load_model` collaborator the run dies
with the `AttributeError` of the missing `checkpoint_dir` argument, never
reaching a load. -/
theorem claim_C9_bug :
    (∀ (n : ℕ) (m : Model), trainChosenModel n (some m) = m)
    ∧ (∀ n : ℕ, trainChosenModel n none = Model.linkNet n)
    ∧ (program ext1 cli_defaults).2 = .error (.attributeError "checkpoint_dir")
    ∧ ∀ (p : String) (co : List String),
        Event.loadedModel p co ∉ (program ext1 cli_defaults).1 := by
  refine ⟨fun n m => rfl, fun n => rfl, rfl, ?_⟩
  intro p co hmem
  have h1 : (program ext1 cli_defaults).1 = [Event.ranEnetWeighing] := rfl
  rw [h1] at hmem
  simp at hmem

/-- C10: `--ignore_unlabelled` is declared with `type=bool`, so every
non-empty command-line string — including `"False"` — parses to `True`; only
the empty string parses to `False`. -/
theorem claim_C10 (s : String) (h : s ≠ "") :
    parseOpt ignoreSpec (some s) = .ok (.vbool true)
    ∧ parseOpt ignoreSpec (some "") = .ok (.vbool false) := by
  constructor
  · have hb : (s != "") = true := by simp [bne_iff_ne, h]
    simp [parseOpt, ignoreSpec, hb]
  · rfl

/-- C10 witness: the string `"False"` parses to `True`. -/
theorem claim_C10_witness :
    ("False" : String) ≠ ""
    ∧ (parseOpt ignoreSpec (some "False") = .ok (.vbool true)
        ∧ parseOpt ignoreSpec (some "") = .ok (.vbool false)) :=
  ⟨by simp, claim_C10 "False" (by simp)⟩


